import Mathlib

/-!
Shallow embedding of the archibald SQL query-builder core
(crates `archibald-core` and `archibald` of bmac/archibald).

Sources embedded here:
  * src/archibald-core/src/operator.rs       (Operator, IntoOperator for &str)
  * src/archibald-core/src/error.rs          (Error)
  * src/archibald/src/value.rs               (Value)
  * src/archibald/src/builder/common.rs      (conditions, joins, clauses)
  * src/archibald-core/src/builder/select.rs (SELECT typestates and renderer)
  * src/archibald-core/src/builder/update.rs (UPDATE typestates and renderer)
  * src/archibald-core/src/builder/delete.rs (DELETE typestates and renderer)
  * src/archibald/src/builder/insert.rs      (INSERT typestates and renderer)

Rust `Vec` is modelled as `List`, `Option` as `Option`, `u64` as `Nat`,
`Result<T>` as `Except Error T`.  Builder methods consume and return
values, exactly as the move-consuming Rust chain does.
-/

/-- `Value` from src/archibald/src/value.rs.  The builder core never computes
with the payloads, it only stores and clones them; `F32`/`F64` therefore carry
their machine bit pattern as a `Nat` and `Json` carries its serialized text,
which keeps every payload decidable without changing any behaviour the
builder observes. -/
inductive Value where
  | Null : Value
  | Bool (b : Bool) : Value
  | I32 (n : Int) : Value
  | I64 (n : Int) : Value
  | F32 (bits : Nat) : Value
  | F64 (bits : Nat) : Value
  | String (s : String) : Value
  | Bytes (bs : List Nat) : Value
  | Json (s : String) : Value
  | Array (vs : List Value) : Value
  | SubqueryPlaceholder : Value
deriving Repr

/-- `Operator` from src/archibald-core/src/operator.rs: a statically known
token or a free-form string validated only at render time. -/
inductive Operator where
  | Known (op : String) : Operator
  | Unknown (op : String) : Operator
deriving Repr, DecidableEq

def Operator.GT : Operator := .Known ">"

def Operator.LT : Operator := .Known "<"

def Operator.EQ : Operator := .Known "="

def Operator.NEQ : Operator := .Known "!="

def Operator.GTE : Operator := .Known ">="

def Operator.LTE : Operator := .Known "<="

def Operator.LIKE : Operator := .Known "LIKE"

def Operator.ILIKE : Operator := .Known "ILIKE"

def Operator.IN : Operator := .Known "IN"

def Operator.NOT_IN : Operator := .Known "NOT IN"

def Operator.IS_NULL : Operator := .Known "IS NULL"

def Operator.IS_NOT_NULL : Operator := .Known "IS NOT NULL"

def Operator.EXISTS : Operator := .Known "EXISTS"

def Operator.NOT_EXISTS : Operator := .Known "NOT EXISTS"

/-- `Operator::custom` (src/archibald-core/src/operator.rs). -/
def Operator.custom (op : String) : Operator := .Known op

/-- `Operator::as_str`. -/
def Operator.as_str : Operator → String
  | .Known op => op
  | .Unknown op => op

/-- `Error` from src/archibald-core/src/error.rs.  The `Database` and
`Serialization` variants wrap external driver errors; here they carry the
wrapped error's message. -/
inductive Error where
  | Database (msg : String) : Error
  | SqlGeneration (message : String) : Error
  | InvalidQuery (message : String) : Error
  | Serialization (msg : String) : Error
  | ColumnNotFound (table : String) (column : String) : Error
  | TableNotFound (table : String) : Error
deriving Repr, DecidableEq

/-- `Error::invalid_query`. -/
def Error.invalid_query (message : String) : Error := .InvalidQuery message

/-- The message produced by `Operator::validate` for an unknown token
(src/archibald-core/src/operator.rs lines 58-64). -/
def unknownOperatorMessage (op : String) : String :=
  "Unknown operator \x27" ++ op ++ "\x27. Use Operator::" ++
    ((op.toUpper.replace " " "_").replace "!" "N") ++
    " constants or Operator::custom(\"" ++ op ++ "\") for custom operators."

/-- `Operator::validate`: a known operator always validates, an unknown one
fails with the unknown-operator `InvalidQuery` error. -/
def Operator.validate : Operator → Except Error Unit
  | .Known _ => .ok ()
  | .Unknown op => .error (Error.invalid_query (unknownOperatorMessage op))

/-- `IntoOperator for &str` (src/archibald-core/src/operator.rs lines 88-109):
a Rust `match` on a `&str` is a sequence of equality tests, rendered here as a
chain of `if`s in the source's branch order. -/
def Operator.fromStr (s : String) : Operator :=
  if s = ">" then .GT
  else if s = "<" then .LT
  else if s = "=" then .EQ
  else if s = "!=" then .NEQ
  else if s = ">=" then .GTE
  else if s = "<=" then .LTE
  else if s = "LIKE" then .LIKE
  else if s = "like" then .LIKE
  else if s = "ILIKE" then .ILIKE
  else if s = "ilike" then .ILIKE
  else if s = "IN" then .IN
  else if s = "in" then .IN
  else if s = "NOT IN" then .NOT_IN
  else if s = "not in" then .NOT_IN
  else if s = "IS NULL" then .IS_NULL
  else if s = "is null" then .IS_NULL
  else if s = "IS NOT NULL" then .IS_NOT_NULL
  else if s = "is not null" then .IS_NOT_NULL
  else if s = "EXISTS" then .EXISTS
  else if s = "exists" then .EXISTS
  else if s = "NOT EXISTS" then .NOT_EXISTS
  else if s = "not exists" then .NOT_EXISTS
  else .Unknown s

/-- The spellings the `IntoOperator for &str` match recognizes, in source
order. -/
def knownSpellings : List String :=
  [">", "<", "=", "!=", ">=", "<=", "LIKE", "like", "ILIKE", "ilike",
   "IN", "in", "NOT IN", "not in", "IS NULL", "is null",
   "IS NOT NULL", "is not null", "EXISTS", "exists",
   "NOT EXISTS", "not exists"]

/-- `WhereConnector` (src/archibald/src/builder/common.rs). -/
inductive WhereConnector where
  | And : WhereConnector
  | Or : WhereConnector
deriving Repr, DecidableEq

/-- `WhereCondition` (src/archibald/src/builder/common.rs). -/
structure WhereCondition where
  column : String
  operator : Operator
  value : Value
  connector : WhereConnector
deriving Repr

/-- `HavingCondition` (src/archibald/src/builder/common.rs). -/
structure HavingCondition where
  column_or_function : String
  operator : Operator
  value : Value
  connector : WhereConnector
deriving Repr

/-- `AggregateFunction` (src/archibald/src/builder/common.rs). -/
inductive AggregateFunction where
  | Count | CountDistinct | Sum | Avg | Min | Max
deriving Repr, DecidableEq

/-- `Display for AggregateFunction`. -/
def AggregateFunction.display : AggregateFunction → String
  | .Count => "COUNT"
  | .CountDistinct => "COUNT(DISTINCT"
  | .Sum => "SUM"
  | .Avg => "AVG"
  | .Min => "MIN"
  | .Max => "MAX"

/-- `JoinType` (src/archibald/src/builder/common.rs). -/
inductive JoinType where
  | Inner | Left | Right | Full | Cross
deriving Repr, DecidableEq

/-- `Display for JoinType`. -/
def JoinType.display : JoinType → String
  | .Inner => "INNER"
  | .Left => "LEFT"
  | .Right => "RIGHT"
  | .Full => "FULL OUTER"
  | .Cross => "CROSS"

/-- `JoinConnector` (src/archibald/src/builder/common.rs). -/
inductive JoinConnector where
  | And : JoinConnector
  | Or : JoinConnector
deriving Repr, DecidableEq

/-- `JoinCondition` (src/archibald/src/builder/common.rs). -/
structure JoinCondition where
  left_column : String
  operator : Operator
  right_column : String
  connector : JoinConnector
deriving Repr

/-- `JoinClause` (src/archibald/src/builder/common.rs). -/
structure JoinClause where
  join_type : JoinType
  table : String
  on_conditions : List JoinCondition
deriving Repr

/-- `SortDirection` (src/archibald/src/builder/common.rs). -/
inductive SortDirection where
  | Asc | Desc
deriving Repr, DecidableEq

/-- `Display for SortDirection`. -/
def SortDirection.display : SortDirection → String
  | .Asc => "ASC"
  | .Desc => "DESC"

/-- `OrderByClause` (src/archibald/src/builder/common.rs). -/
structure OrderByClause where
  column : String
  direction : SortDirection
deriving Repr

/-- `GroupByClause` (src/archibald/src/builder/common.rs). -/
structure GroupByClause where
  columns : List String
deriving Repr

mutual

/-- `ColumnSelector` (src/archibald-core/src/builder/select.rs lines 11-26). -/
inductive ColumnSelector where
  | Column (name : String) : ColumnSelector
  | Aggregate (function : AggregateFunction) (column : String)
      («alias» : Option String) : ColumnSelector
  | CountAll («alias» : Option String) : ColumnSelector
  | SubqueryColumn (subquery : Subquery) («alias» : Option String) : ColumnSelector

/-- `Subquery` (src/archibald-core/src/builder/select.rs lines 128-131): a
boxed complete nested SELECT builder. -/
inductive Subquery where
  | mk (query : SelectBuilderComplete) : Subquery

/-- `SubqueryCondition` (src/archibald-core/src/builder/select.rs
lines 154-160). -/
inductive SubqueryCondition where
  | mk (column : String) (operator : Operator) (subquery : Subquery)
      (connector : WhereConnector) : SubqueryCondition

/-- `SelectBuilderInitial` (src/archibald-core/src/builder/select.rs
lines 164-177).  Fields in source order: table_name, where_conditions,
subquery_conditions, join_clauses, order_by_clauses, group_by_clause,
having_conditions, distinct, limit_value, offset_value, parameters. -/
inductive SelectBuilderInitial where
  | mk (table_name : String)
      (where_conditions : List WhereCondition)
      (subquery_conditions : List SubqueryCondition)
      (join_clauses : List JoinClause)
      (order_by_clauses : List OrderByClause)
      (group_by_clause : Option GroupByClause)
      (having_conditions : List HavingCondition)
      (distinct : Bool)
      (limit_value : Option Nat)
      (offset_value : Option Nat)
      (parameters : List Value) : SelectBuilderInitial

/-- `SelectBuilderComplete` (src/archibald-core/src/builder/select.rs
lines 181-195).  Fields in source order: table_name, selected_columns,
where_conditions, subquery_conditions, join_clauses, order_by_clauses,
group_by_clause, having_conditions, distinct, limit_value, offset_value,
parameters. -/
inductive SelectBuilderComplete where
  | mk (table_name : String)
      (selected_columns : List ColumnSelector)
      (where_conditions : List WhereCondition)
      (subquery_conditions : List SubqueryCondition)
      (join_clauses : List JoinClause)
      (order_by_clauses : List OrderByClause)
      (group_by_clause : Option GroupByClause)
      (having_conditions : List HavingCondition)
      (distinct : Bool)
      (limit_value : Option Nat)
      (offset_value : Option Nat)
      (parameters : List Value) : SelectBuilderComplete

end

/-- Field accessor. -/
def SelectBuilderComplete.table_name : SelectBuilderComplete → String
  | .mk t _ _ _ _ _ _ _ _ _ _ _ => t

/-- Field accessor. -/
def SelectBuilderComplete.selected_columns : SelectBuilderComplete → List ColumnSelector
  | .mk _ c _ _ _ _ _ _ _ _ _ _ => c

/-- Field accessor. -/
def SelectBuilderComplete.where_conditions : SelectBuilderComplete → List WhereCondition
  | .mk _ _ w _ _ _ _ _ _ _ _ _ => w

/-- Field accessor. -/
def SelectBuilderComplete.subquery_conditions : SelectBuilderComplete → List SubqueryCondition
  | .mk _ _ _ s _ _ _ _ _ _ _ _ => s

/-- Field accessor. -/
def SelectBuilderComplete.join_clauses : SelectBuilderComplete → List JoinClause
  | .mk _ _ _ _ j _ _ _ _ _ _ _ => j

/-- Field accessor. -/
def SelectBuilderComplete.order_by_clauses : SelectBuilderComplete → List OrderByClause
  | .mk _ _ _ _ _ o _ _ _ _ _ _ => o

/-- Field accessor. -/
def SelectBuilderComplete.group_by_clause : SelectBuilderComplete → Option GroupByClause
  | .mk _ _ _ _ _ _ g _ _ _ _ _ => g

/-- Field accessor. -/
def SelectBuilderComplete.having_conditions : SelectBuilderComplete → List HavingCondition
  | .mk _ _ _ _ _ _ _ h _ _ _ _ => h

/-- Field accessor for the stored parameter list; `QueryBuilder::parameters`
for the complete SELECT state returns exactly this field. -/
def SelectBuilderComplete.parameters : SelectBuilderComplete → List Value
  | .mk _ _ _ _ _ _ _ _ _ _ _ p => p

/-- Field accessor. -/
def SelectBuilderInitial.table_name : SelectBuilderInitial → String
  | .mk t _ _ _ _ _ _ _ _ _ _ => t

/-- Field accessor for the parameter list `SelectBuilderInitial` accumulates
internally (note: the `QueryBuilder::parameters` impl for the initial state
does NOT return this field, it returns the empty slice). -/
def SelectBuilderInitial.params_acc : SelectBuilderInitial → List Value
  | .mk _ _ _ _ _ _ _ _ _ _ p => p

/-- Field accessor. -/
def SelectBuilderInitial.where_conditions : SelectBuilderInitial → List WhereCondition
  | .mk _ w _ _ _ _ _ _ _ _ _ => w

/-- Field accessor. -/
def SelectBuilderInitial.having_conditions : SelectBuilderInitial → List HavingCondition
  | .mk _ _ _ _ _ _ h _ _ _ _ => h

/-- `SelectBuilderInitial::new` / `archibald_core::from` (`from` is a Lean
keyword, hence the name `fromTable`). -/
def fromTable (table : String) : SelectBuilderInitial :=
  .mk table [] [] [] [] none [] false none none []

/-- `SelectBuilderInitial::select`: transitions to the complete state,
carrying every accumulated clause and parameter across. -/
def SelectBuilderInitial.select : SelectBuilderInitial → List ColumnSelector → SelectBuilderComplete
  | .mk t w s j o g h d l f p, cols => .mk t cols w s j o g h d l f p

/-- `SelectBuilderInitial::select_all`. -/
def SelectBuilderInitial.select_all : SelectBuilderInitial → SelectBuilderComplete
  | .mk t w s j o g h d l f p => .mk t [ColumnSelector.Column "*"] w s j o g h d l f p

/-- Condition input: `IntoCondition` produces a `(column, operator, value)`
triple; this is its result type.  The 2-tuple shorthand is `condPair`. -/
abbrev Condition : Type := String × Operator × Value

/-- `IntoCondition for (&str, T)` (src/archibald/src/builder/common.rs
lines 25-32): the operator defaults to `=`. -/
def condPair (column : String) (value : Value) : Condition :=
  (column, Operator.EQ, value)

/-- `SelectBuilderInitial::where_`: appends an AND-connected condition and
pushes its value onto the accumulated parameter list. -/
def SelectBuilderInitial.where_ : SelectBuilderInitial → Condition → SelectBuilderInitial
  | .mk t w s j o g h d l f p, (column, operator, value) =>
    .mk t (w ++ [⟨column, operator, value, WhereConnector.And⟩]) s j o g h d l f
      (p ++ [value])

/-- `SelectBuilderInitial::or_where`. -/
def SelectBuilderInitial.or_where : SelectBuilderInitial → Condition → SelectBuilderInitial
  | .mk t w s j o g h d l f p, (column, operator, value) =>
    .mk t (w ++ [⟨column, operator, value, WhereConnector.Or⟩]) s j o g h d l f
      (p ++ [value])

/-- `SelectBuilderInitial::and_where` (same as `where_`). -/
def SelectBuilderInitial.and_where (b : SelectBuilderInitial) (c : Condition) :
    SelectBuilderInitial :=
  b.where_ c

/-- `SelectBuilderInitial::where_in`: pushes a subquery condition with the
`IN` operator; the nested builder's parameters stay inside the `Subquery`. -/
def SelectBuilderInitial.where_in : SelectBuilderInitial → String → SelectBuilderComplete → SelectBuilderInitial
  | .mk t w s j o g h d l f p, column, subquery =>
    .mk t w (s ++ [.mk column Operator.IN (.mk subquery) WhereConnector.And]) j o g h d l f p

/-- `SelectBuilderInitial::where_exists`: the column is the empty string. -/
def SelectBuilderInitial.where_exists : SelectBuilderInitial → SelectBuilderComplete → SelectBuilderInitial
  | .mk t w s j o g h d l f p, subquery =>
    .mk t w (s ++ [.mk "" Operator.EXISTS (.mk subquery) WhereConnector.And]) j o g h d l f p

/-- `SelectBuilderInitial::join` (generic JOIN with custom type and
operator). -/
def SelectBuilderInitial.join : SelectBuilderInitial → JoinType → String → String → Operator → String → SelectBuilderInitial
  | .mk t w s j o g h d l f p, join_type, table, left_col, operator, right_col =>
    .mk t w s (j ++ [⟨join_type, table, [⟨left_col, operator, right_col, JoinConnector.And⟩]⟩]) o g h d l f p

/-- `SelectBuilderInitial::inner_join`. -/
def SelectBuilderInitial.inner_join (b : SelectBuilderInitial)
    (table left_column right_column : String) : SelectBuilderInitial :=
  match b with
  | .mk t w s j o g h d l f p =>
    .mk t w s (j ++ [⟨JoinType.Inner, table,
      [⟨left_column, Operator.EQ, right_column, JoinConnector.And⟩]⟩]) o g h d l f p

/-- `SelectBuilderInitial::cross_join`: no ON conditions. -/
def SelectBuilderInitial.cross_join (b : SelectBuilderInitial) (table : String) :
    SelectBuilderInitial :=
  match b with
  | .mk t w s j o g h d l f p =>
    .mk t w s (j ++ [⟨JoinType.Cross, table, []⟩]) o g h d l f p

/-- `SelectBuilderInitial::group_by`: replaces the GROUP BY clause. -/
def SelectBuilderInitial.group_by : SelectBuilderInitial → List String → SelectBuilderInitial
  | .mk t w s j o _ h d l f p, columns =>
    .mk t w s j o (some ⟨columns⟩) h d l f p

/-- `SelectBuilderInitial.having`: appends an AND-connected HAVING condition
and pushes its value onto the accumulated parameter list. -/
def SelectBuilderInitial.having : SelectBuilderInitial → Condition → SelectBuilderInitial
  | .mk t w s j o g h d l f p, (column, operator, value) =>
    .mk t w s j o g (h ++ [⟨column, operator, value, WhereConnector.And⟩]) d l f
      (p ++ [value])

/-- `SelectBuilderInitial::or_having`. -/
def SelectBuilderInitial.or_having : SelectBuilderInitial → Condition → SelectBuilderInitial
  | .mk t w s j o g h d l f p, (column, operator, value) =>
    .mk t w s j o g (h ++ [⟨column, operator, value, WhereConnector.Or⟩]) d l f
      (p ++ [value])

/-- `SelectBuilderComplete::where_`. -/
def SelectBuilderComplete.where_ : SelectBuilderComplete → Condition → SelectBuilderComplete
  | .mk t c w s j o g h d l f p, (column, operator, value) =>
    .mk t c (w ++ [⟨column, operator, value, WhereConnector.And⟩]) s j o g h d l f
      (p ++ [value])

/-- `SelectBuilderComplete::or_where`. -/
def SelectBuilderComplete.or_where : SelectBuilderComplete → Condition → SelectBuilderComplete
  | .mk t c w s j o g h d l f p, (column, operator, value) =>
    .mk t c (w ++ [⟨column, operator, value, WhereConnector.Or⟩]) s j o g h d l f
      (p ++ [value])

/-- `SelectBuilderComplete::and_where` (same as `where_`). -/
def SelectBuilderComplete.and_where (b : SelectBuilderComplete) (c : Condition) :
    SelectBuilderComplete :=
  b.where_ c

/-- `SelectBuilderComplete::where_in`. -/
def SelectBuilderComplete.where_in : SelectBuilderComplete → String → SelectBuilderComplete → SelectBuilderComplete
  | .mk t c w s j o g h d l f p, column, subquery =>
    .mk t c w (s ++ [.mk column Operator.IN (.mk subquery) WhereConnector.And]) j o g h d l f p

/-- `SelectBuilderComplete::where_exists`. -/
def SelectBuilderComplete.where_exists : SelectBuilderComplete → SelectBuilderComplete → SelectBuilderComplete
  | .mk t c w s j o g h d l f p, subquery =>
    .mk t c w (s ++ [.mk "" Operator.EXISTS (.mk subquery) WhereConnector.And]) j o g h d l f p

/-- `SelectBuilderComplete::join`. -/
def SelectBuilderComplete.join : SelectBuilderComplete → JoinType → String → String → Operator → String → SelectBuilderComplete
  | .mk t c w s j o g h d l f p, join_type, table, left_col, operator, right_col =>
    .mk t c w s (j ++ [⟨join_type, table, [⟨left_col, operator, right_col, JoinConnector.And⟩]⟩]) o g h d l f p

/-- `SelectBuilderComplete::group_by`. -/
def SelectBuilderComplete.group_by : SelectBuilderComplete → List String → SelectBuilderComplete
  | .mk t c w s j o _ h d l f p, columns =>
    .mk t c w s j o (some ⟨columns⟩) h d l f p

/-- `SelectBuilderComplete::having`. -/
def SelectBuilderComplete.having : SelectBuilderComplete → Condition → SelectBuilderComplete
  | .mk t c w s j o g h d l f p, (column, operator, value) =>
    .mk t c w s j o g (h ++ [⟨column, operator, value, WhereConnector.And⟩]) d l f
      (p ++ [value])

/-- `SelectBuilderComplete::and_having`. -/
def SelectBuilderComplete.and_having : SelectBuilderComplete → Condition → SelectBuilderComplete
  | .mk t c w s j o g h d l f p, (column, operator, value) =>
    .mk t c w s j o g (h ++ [⟨column, operator, value, WhereConnector.And⟩]) d l f
      (p ++ [value])

/-- `SelectBuilderComplete::or_having`. -/
def SelectBuilderComplete.or_having : SelectBuilderComplete → Condition → SelectBuilderComplete
  | .mk t c w s j o g h d l f p, (column, operator, value) =>
    .mk t c w s j o g (h ++ [⟨column, operator, value, WhereConnector.Or⟩]) d l f
      (p ++ [value])

/-- Accessor for `SubqueryCondition`. -/
def SubqueryCondition.column : SubqueryCondition → String
  | .mk c _ _ _ => c

/-- Accessor for `SubqueryCondition`. -/
def SubqueryCondition.operator : SubqueryCondition → Operator
  | .mk _ o _ _ => o

/-- Accessor for `SubqueryCondition`. -/
def SubqueryCondition.subquery : SubqueryCondition → Subquery
  | .mk _ _ s _ => s

/-- Accessor for `SubqueryCondition`. -/
def SubqueryCondition.connector : SubqueryCondition → WhereConnector
  | .mk _ _ _ c => c

/-- Accessor for `Subquery` (the boxed nested builder). -/
def Subquery.query : Subquery → SelectBuilderComplete
  | .mk q => q

/-- The `for condition in &self.where_conditions { condition.operator.validate()?; }`
loop that opens every renderer. -/
def validateWhereOps : List WhereCondition → Except Error Unit
  | [] => .ok ()
  | c :: rest => do
      c.operator.validate
      validateWhereOps rest

/-- The validation loop over subquery conditions
(src/archibald-core/src/builder/select.rs lines 918-920). -/
def validateSubqueryOps : List SubqueryCondition → Except Error Unit
  | [] => .ok ()
  | .mk _ operator _ _ :: rest => do
      operator.validate
      validateSubqueryOps rest

/-- The `AND`/`OR` token a connector prints. -/
def WhereConnector.token : WhereConnector → String
  | .And => " AND "
  | .Or => " OR "

/-- The `AND`/`OR` token a join connector prints. -/
def JoinConnector.token : JoinConnector → String
  | .And => " AND "
  | .Or => " OR "

/-- The regular WHERE-condition emission loop
(src/archibald-core/src/builder/select.rs lines 1012-1025; the same loop shape
appears in the UPDATE and DELETE renderers).  `i` is the loop counter; the
source guard `conditions_added > 0 || i > 0` equals `i > 0` inside this loop
because `conditions_added` and `i` advance together. -/
def renderWhereConds : List WhereCondition → Nat → String
  | [], _ => ""
  | c :: rest, i =>
    (if i > 0 then c.connector.token else "") ++
      c.column ++ " " ++ c.operator.as_str ++ " ?" ++
      renderWhereConds rest (i + 1)

/-- The HAVING-condition emission loop
(src/archibald-core/src/builder/select.rs lines 1056-1068). -/
def renderHavingConds : List HavingCondition → Nat → String
  | [], _ => ""
  | c :: rest, i =>
    (if i > 0 then c.connector.token else "") ++
      c.column_or_function ++ " " ++ c.operator.as_str ++ " ?" ++
      renderHavingConds rest (i + 1)

/-- The ON-condition emission loop inside a JOIN clause
(src/archibald-core/src/builder/select.rs lines 988-1001). -/
def renderJoinConds : List JoinCondition → Nat → String
  | [], _ => ""
  | c :: rest, i =>
    (if i > 0 then c.connector.token else "") ++
      c.left_column ++ " " ++ c.operator.as_str ++ " " ++ c.right_column ++
      renderJoinConds rest (i + 1)

/-- The JOIN-clause emission loop
(src/archibald-core/src/builder/select.rs lines 979-1003). -/
def renderJoins : List JoinClause → String
  | [] => ""
  | j :: rest =>
    " " ++ j.join_type.display ++ " JOIN " ++ j.table ++
      (if j.on_conditions.isEmpty then "" else " ON " ++ renderJoinConds j.on_conditions 0) ++
      renderJoins rest

mutual

/-- One arm of the column-rendering loop of `SelectBuilderComplete::to_sql`
(src/archibald-core/src/builder/select.rs lines 936-968), including the
source's `COUNT(DISTINCT` double-parenthesis quirk. -/
def renderColumnSelector : ColumnSelector → Except Error String
  | .Column name => .ok name
  | .Aggregate function column a =>
      let func_sql :=
        match function with
        | .CountDistinct => function.display ++ "(" ++ column ++ "))"
        | _ => function.display ++ "(" ++ column ++ ")"
      .ok (match a with
        | some al => func_sql ++ " AS " ++ al
        | none => func_sql)
  | .CountAll a =>
      .ok (match a with
        | some al => "COUNT(*)" ++ " AS " ++ al
        | none => "COUNT(*)")
  | .SubqueryColumn sq a => do
      let subquery_sql ← Subquery.to_sql sq
      .ok (match a with
        | some al => subquery_sql ++ " AS " ++ al
        | none => subquery_sql)

/-- The column-rendering loop collecting `column_parts`. -/
def renderColumns : List ColumnSelector → Except Error (List String)
  | [] => .ok []
  | c :: rest => do
      let part ← renderColumnSelector c
      let parts ← renderColumns rest
      .ok (part :: parts)

/-- `Subquery::to_sql`: renders the nested builder and parenthesizes it. -/
def Subquery.to_sql : Subquery → Except Error String
  | .mk q => do
      let inner_sql ← SelectBuilderComplete.to_sql q
      .ok ("(" ++ inner_sql ++ ")")

/-- The subquery-condition emission loop of the WHERE clause
(src/archibald-core/src/builder/select.rs lines 1028-1044); `added` is the
running `conditions_added` counter. -/
def renderSubqueryConds : List SubqueryCondition → Nat → Except Error String
  | [], _ => .ok ""
  | .mk column operator subquery connector :: rest, added => do
      let sub_sql ← Subquery.to_sql subquery
      let rest_sql ← renderSubqueryConds rest (added + 1)
      .ok ((if added > 0 then connector.token else "") ++
        column ++ (if column.isEmpty then "" else " ") ++
        operator.as_str ++ " " ++ sub_sql ++ rest_sql)

/-- `QueryBuilder::to_sql` for `SelectBuilderComplete`
(src/archibald-core/src/builder/select.rs lines 912-1093): validates the
operators of the WHERE and subquery conditions, then emits
SELECT [DISTINCT] cols FROM table [joins] [WHERE ...] [GROUP BY ...
[HAVING ...]] [ORDER BY ...] [LIMIT n] [OFFSET n]. -/
def SelectBuilderComplete.to_sql : SelectBuilderComplete → Except Error String
  | .mk table cols wheres subqs joins orders groupBy havings dist lim off _ => do
      validateWhereOps wheres
      validateSubqueryOps subqs
      let colStr ←
        if cols.isEmpty then pure "*"
        else do
          let parts ← renderColumns cols
          pure (String.intercalate ", " parts)
      let whereStr ←
        if wheres.isEmpty && subqs.isEmpty then pure ""
        else do
          let subPart ← renderSubqueryConds subqs wheres.length
          pure (" WHERE " ++ renderWhereConds wheres 0 ++ subPart)
      let groupStr :=
        match groupBy with
        | none => ""
        | some g =>
            " GROUP BY " ++ String.intercalate ", " g.columns ++
              (if havings.isEmpty then ""
               else " HAVING " ++ renderHavingConds havings 0)
      let orderStr :=
        if orders.isEmpty then ""
        else " ORDER BY " ++ String.intercalate ", "
          (orders.map (fun c => c.column ++ " " ++ c.direction.display))
      let limStr := match lim with | none => "" | some n => " LIMIT " ++ toString n
      let offStr := match off with | none => "" | some n => " OFFSET " ++ toString n
      .ok ("SELECT " ++ (if dist then "DISTINCT " else "") ++ colStr ++
        " FROM " ++ table ++ renderJoins joins ++ whereStr ++ groupStr ++
        orderStr ++ limStr ++ offStr)

end

/-- `Subquery::parameters`: delegates to the nested builder's stored
parameter list. -/
def Subquery.parameters (s : Subquery) : List Value :=
  s.query.parameters

/-- `QueryBuilder::to_sql` for `SelectBuilderInitial`: rendering the initial
state always fails. -/
def SelectBuilderInitial.to_sql (_ : SelectBuilderInitial) : Except Error String :=
  .error (Error.invalid_query "SELECT requires columns to be specified with .select()")

/-- `QueryBuilder::parameters` for `SelectBuilderInitial`: always the empty
slice, regardless of what the state has accumulated internally. -/
def SelectBuilderInitial.parameters (_ : SelectBuilderInitial) : List Value :=
  []

/-- `UpdateBuilderInitial` (src/archibald-core/src/builder/update.rs). -/
structure UpdateBuilderInitial where
  table_name : String
deriving Repr

/-- `UpdateBuilderWithSet` (src/archibald-core/src/builder/update.rs). -/
structure UpdateBuilderWithSet where
  table_name : String
  set_clauses : List (String × Value)
  set_parameters : List Value
deriving Repr

/-- `UpdateBuilderComplete` (src/archibald-core/src/builder/update.rs). -/
structure UpdateBuilderComplete where
  table_name : String
  set_clauses : List (String × Value)
  where_conditions : List WhereCondition
  where_parameters : List Value
  all_parameters : List Value
deriving Repr

/-- `UpdateBuilderInitial::new` / `archibald::update` (named `updateTable` in
the style of `fromTable`). -/
def updateTable (table : String) : UpdateBuilderInitial :=
  ⟨table⟩

/-- `UpdateBuilderInitial::set`: transitions to `UpdateBuilderWithSet`.  The
source's `IntoUpdateData for HashMap` yields `(column, value)` pairs in the
map's iteration order; the update data is modelled as that association list
directly. -/
def UpdateBuilderInitial.set (b : UpdateBuilderInitial) (data : List (String × Value)) :
    UpdateBuilderWithSet :=
  { table_name := b.table_name
    set_clauses := data
    set_parameters := data.map (fun p => p.2) }

/-- `UpdateBuilderWithSet::where_`: transitions to `UpdateBuilderComplete`,
putting the SET parameters before the WHERE parameter in `all_parameters`. -/
def UpdateBuilderWithSet.where_ (b : UpdateBuilderWithSet) (c : Condition) :
    UpdateBuilderComplete :=
  match c with
  | (column, operator, value) =>
    { table_name := b.table_name
      set_clauses := b.set_clauses
      where_conditions := [⟨column, operator, value, WhereConnector.And⟩]
      where_parameters := [value]
      all_parameters := b.set_parameters ++ [value] }

/-- `UpdateBuilderWithSet::and_where` (same as `where_`). -/
def UpdateBuilderWithSet.and_where (b : UpdateBuilderWithSet) (c : Condition) :
    UpdateBuilderComplete :=
  b.where_ c

/-- `UpdateBuilderComplete::and_where`. -/
def UpdateBuilderComplete.and_where (b : UpdateBuilderComplete) (c : Condition) :
    UpdateBuilderComplete :=
  match c with
  | (column, operator, value) =>
    { b with
      where_conditions := b.where_conditions ++ [⟨column, operator, value, WhereConnector.And⟩]
      where_parameters := b.where_parameters ++ [value]
      all_parameters := b.all_parameters ++ [value] }

/-- `UpdateBuilderComplete::or_where`. -/
def UpdateBuilderComplete.or_where (b : UpdateBuilderComplete) (c : Condition) :
    UpdateBuilderComplete :=
  match c with
  | (column, operator, value) =>
    { b with
      where_conditions := b.where_conditions ++ [⟨column, operator, value, WhereConnector.Or⟩]
      where_parameters := b.where_parameters ++ [value]
      all_parameters := b.all_parameters ++ [value] }

/-- `UpdateBuilderComplete::where_` (same as `and_where`). -/
def UpdateBuilderComplete.where_ (b : UpdateBuilderComplete) (c : Condition) :
    UpdateBuilderComplete :=
  b.and_where c

/-- `QueryBuilder::to_sql` for `UpdateBuilderInitial`: always fails. -/
def UpdateBuilderInitial.to_sql (_ : UpdateBuilderInitial) : Except Error String :=
  .error (Error.invalid_query "UPDATE requires SET clause. Use .set() method.")

/-- `QueryBuilder::parameters` for `UpdateBuilderInitial`. -/
def UpdateBuilderInitial.parameters (_ : UpdateBuilderInitial) : List Value :=
  []

/-- `QueryBuilder::to_sql` for `UpdateBuilderWithSet`: always fails. -/
def UpdateBuilderWithSet.to_sql (_ : UpdateBuilderWithSet) : Except Error String :=
  .error (Error.invalid_query
    "UPDATE requires WHERE clause for safety. Use .where_() or .and_where() method.")

/-- `QueryBuilder::parameters` for `UpdateBuilderWithSet`: the SET
parameters. -/
def UpdateBuilderWithSet.parameters (b : UpdateBuilderWithSet) : List Value :=
  b.set_parameters

/-- `QueryBuilder::to_sql` for `UpdateBuilderComplete`
(src/archibald-core/src/builder/update.rs lines 183-224). -/
def UpdateBuilderComplete.to_sql (b : UpdateBuilderComplete) : Except Error String := do
  validateWhereOps b.where_conditions
  let setStr := String.intercalate ", "
    (b.set_clauses.map (fun p => p.1 ++ " = ?"))
  let whereStr :=
    if b.where_conditions.isEmpty then ""
    else " WHERE " ++ renderWhereConds b.where_conditions 0
  .ok ("UPDATE " ++ b.table_name ++ " SET " ++ setStr ++ whereStr)

/-- `QueryBuilder::parameters` for `UpdateBuilderComplete`: the combined
SET-then-WHERE parameter list. -/
def UpdateBuilderComplete.parameters (b : UpdateBuilderComplete) : List Value :=
  b.all_parameters

/-- `DeleteBuilderInitial` (src/archibald-core/src/builder/delete.rs). -/
structure DeleteBuilderInitial where
  table_name : String
deriving Repr

/-- `DeleteBuilderComplete` (src/archibald-core/src/builder/delete.rs). -/
structure DeleteBuilderComplete where
  table_name : String
  where_conditions : List WhereCondition
  parameters : List Value
deriving Repr

/-- `DeleteBuilderInitial::new` / `archibald::delete` (named `deleteFrom` in
the style of `fromTable`). -/
def deleteFrom (table : String) : DeleteBuilderInitial :=
  ⟨table⟩

/-- `DeleteBuilderInitial::where_`: transitions to `DeleteBuilderComplete`. -/
def DeleteBuilderInitial.where_ (b : DeleteBuilderInitial) (c : Condition) :
    DeleteBuilderComplete :=
  match c with
  | (column, operator, value) =>
    { table_name := b.table_name
      where_conditions := [⟨column, operator, value, WhereConnector.And⟩]
      parameters := [value] }

/-- `DeleteBuilderComplete::where_`. -/
def DeleteBuilderComplete.where_ (b : DeleteBuilderComplete) (c : Condition) :
    DeleteBuilderComplete :=
  match c with
  | (column, operator, value) =>
    { b with
      where_conditions := b.where_conditions ++ [⟨column, operator, value, WhereConnector.And⟩]
      parameters := b.parameters ++ [value] }

/-- `DeleteBuilderComplete::or_where`. -/
def DeleteBuilderComplete.or_where (b : DeleteBuilderComplete) (c : Condition) :
    DeleteBuilderComplete :=
  match c with
  | (column, operator, value) =>
    { b with
      where_conditions := b.where_conditions ++ [⟨column, operator, value, WhereConnector.Or⟩]
      parameters := b.parameters ++ [value] }

/-- `DeleteBuilderComplete::and_where` (same as `where_`). -/
def DeleteBuilderComplete.and_where (b : DeleteBuilderComplete) (c : Condition) :
    DeleteBuilderComplete :=
  b.where_ c

/-- `QueryBuilder::to_sql` for `DeleteBuilderInitial`: always fails. -/
def DeleteBuilderInitial.to_sql (_ : DeleteBuilderInitial) : Except Error String :=
  .error (Error.invalid_query "DELETE requires WHERE condition for safety")

/-- `QueryBuilder::parameters` for `DeleteBuilderInitial`. -/
def DeleteBuilderInitial.parameters (_ : DeleteBuilderInitial) : List Value :=
  []

/-- `QueryBuilder::to_sql` for `DeleteBuilderComplete`
(src/archibald-core/src/builder/delete.rs lines 118-150). -/
def DeleteBuilderComplete.to_sql (b : DeleteBuilderComplete) : Except Error String := do
  validateWhereOps b.where_conditions
  let whereStr :=
    if b.where_conditions.isEmpty then ""
    else " WHERE " ++ renderWhereConds b.where_conditions 0
  .ok ("DELETE FROM " ++ b.table_name ++ whereStr)

/-- `InsertBuilderInitial` (src/archibald/src/builder/insert.rs). -/
structure InsertBuilderInitial where
  table_name : String
deriving Repr

/-- `InsertBuilderComplete` (src/archibald/src/builder/insert.rs lines 16-21):
note the `parameters` field, which `values`/`values_many` initialise to the
empty vector and nothing ever fills. -/
structure InsertBuilderComplete where
  table_name : String
  columns : List String
  values : List (List Value)
  parameters : List Value
deriving Repr

/-- `InsertBuilderInitial::new` / `archibald::insert` (named `insertInto` in
the style of `fromTable`). -/
def insertInto (table : String) : InsertBuilderInitial :=
  ⟨table⟩

/-- `IntoInsertData for HashMap` (src/archibald/src/builder/insert.rs lines
148-154): columns are the map's keys and values the matching entries, in the
map's iteration order; modelled as the given association list. -/
def into_insert_data (data : List (String × Value)) : List String × List Value :=
  (data.map (fun p => p.1), data.map (fun p => p.2))

/-- `InsertBuilderInitial::values`: transitions to `InsertBuilderComplete`
with a single row and an EMPTY `parameters` vector (source lines 44-55). -/
def InsertBuilderInitial.values (b : InsertBuilderInitial) (data : List (String × Value)) :
    InsertBuilderComplete :=
  let cv := into_insert_data data
  { table_name := b.table_name
    columns := cv.1
    values := [cv.2]
    parameters := [] }

/-- `InsertBuilderInitial::values_many` (source lines 58-81): columns from the
first record, one value row per record, and again an empty `parameters`
vector. -/
def InsertBuilderInitial.values_many (b : InsertBuilderInitial)
    (data : List (List (String × Value))) : InsertBuilderComplete :=
  match data with
  | [] =>
    { table_name := b.table_name, columns := [], values := [], parameters := [] }
  | first :: _ =>
    { table_name := b.table_name
      columns := (into_insert_data first).1
      values := data.map (fun item => (into_insert_data item).2)
      parameters := [] }

/-- `QueryBuilder::to_sql` for `InsertBuilderInitial`: always fails. -/
def InsertBuilderInitial.to_sql (_ : InsertBuilderInitial) : Except Error String :=
  .error (Error.invalid_query "INSERT requires values to be specified with .values()")

/-- `QueryBuilder::parameters` for `InsertBuilderInitial`. -/
def InsertBuilderInitial.parameters (_ : InsertBuilderInitial) : List Value :=
  []

/-- `QueryBuilder::to_sql` for `InsertBuilderComplete`
(src/archibald/src/builder/insert.rs lines 100-132). -/
def InsertBuilderComplete.to_sql (b : InsertBuilderComplete) : Except Error String :=
  if b.columns.isEmpty || b.values.isEmpty then
    .error (Error.invalid_query "INSERT requires columns and values")
  else
    .ok ("INSERT INTO " ++ b.table_name ++ " (" ++
      String.intercalate ", " b.columns ++ ")" ++ " VALUES " ++
      String.intercalate ", "
        (b.values.map (fun row =>
          "(" ++ String.intercalate ", " (row.map (fun _ => "?")) ++ ")")))

/-- Number of `?` placeholder tokens in a SQL string. -/
def countPlaceholders (s : String) : Nat :=
  s.data.countP (fun c => c == '?')

mutual

/-- Modelled from the spec's parameter-order law ("a parameter sequence whose
order exactly matches the left-to-right order of `?` placeholders in the
emitted SQL string"): the condition values listed in the order in which the
renderer emits their `?` placeholders — scalar-subquery columns of the SELECT
list first, then WHERE-condition values, then the values nested in
subquery conditions, then (only when a GROUP BY is present, since HAVING is
emitted inside the GROUP BY branch) HAVING-condition values. -/
def placeholderParams : SelectBuilderComplete → List Value
  | .mk _ cols wheres subqs _ _ groupBy havings _ _ _ _ =>
    columnsPlaceholderParams cols ++
      wheres.map (fun c => c.value) ++
      subqueryCondsPlaceholderParams subqs ++
      (match groupBy with
       | none => []
       | some _ => havings.map (fun c => c.value))

/-- Placeholder-ordered values contributed by the SELECT column list (only
scalar-subquery columns emit placeholders). -/
def columnsPlaceholderParams : List ColumnSelector → List Value
  | [] => []
  | .SubqueryColumn sq _ :: rest =>
      subqueryPlaceholderParams sq ++ columnsPlaceholderParams rest
  | .Column _ :: rest => columnsPlaceholderParams rest
  | .Aggregate _ _ _ :: rest => columnsPlaceholderParams rest
  | .CountAll _ :: rest => columnsPlaceholderParams rest

/-- Placeholder-ordered values of a nested subquery. -/
def subqueryPlaceholderParams : Subquery → List Value
  | .mk q => placeholderParams q

/-- Placeholder-ordered values contributed by the subquery conditions of a
WHERE clause. -/
def subqueryCondsPlaceholderParams : List SubqueryCondition → List Value
  | [] => []
  | .mk _ _ sq _ :: rest =>
      subqueryPlaceholderParams sq ++ subqueryCondsPlaceholderParams rest

end

/-- One WHERE-condition-adding call on the complete SELECT state: `where_`,
`or_where` or `and_where`, with the condition it was given. -/
inductive WhereCall where
  | whereC (c : Condition) : WhereCall
  | orWhereC (c : Condition) : WhereCall
  | andWhereC (c : Condition) : WhereCall

/-- The condition a call supplies. -/
def WhereCall.cond : WhereCall → Condition
  | .whereC c => c
  | .orWhereC c => c
  | .andWhereC c => c

/-- The connector a call attaches: `or_where` supplies OR, the others AND. -/
def WhereCall.connector : WhereCall → WhereConnector
  | .whereC _ => .And
  | .orWhereC _ => .Or
  | .andWhereC _ => .And

/-- The column of a call's condition. -/
def WhereCall.column (c : WhereCall) : String := c.cond.1

/-- The operator of a call's condition. -/
def WhereCall.operator (c : WhereCall) : Operator := c.cond.2.1

/-- The value of a call's condition. -/
def WhereCall.value (c : WhereCall) : Value := c.cond.2.2

/-- The `WhereCondition` record a call appends. -/
def WhereCall.toCondition (c : WhereCall) : WhereCondition :=
  ⟨c.column, c.operator, c.value, c.connector⟩

/-- Apply one WHERE-adding call to a complete SELECT builder. -/
def applyWhereCall (b : SelectBuilderComplete) : WhereCall → SelectBuilderComplete
  | .whereC c => b.where_ c
  | .orWhereC c => b.or_where c
  | .andWhereC c => b.and_where c

/-- Apply a sequence of WHERE-adding calls, left to right (call order). -/
def applyWhereCalls : SelectBuilderComplete → List WhereCall → SelectBuilderComplete
  | b, [] => b
  | b, c :: rest => applyWhereCalls (applyWhereCall b c) rest

/-- One HAVING-condition-adding call on the complete SELECT state: `having`,
`and_having` or `or_having`. -/
inductive HavingCall where
  | havingC (c : Condition) : HavingCall
  | andHavingC (c : Condition) : HavingCall
  | orHavingC (c : Condition) : HavingCall

/-- The condition a HAVING call supplies. -/
def HavingCall.cond : HavingCall → Condition
  | .havingC c => c
  | .andHavingC c => c
  | .orHavingC c => c

/-- The connector a HAVING call attaches: `or_having` supplies OR, the others
AND. -/
def HavingCall.connector : HavingCall → WhereConnector
  | .havingC _ => .And
  | .andHavingC _ => .And
  | .orHavingC _ => .Or

/-- The value of a HAVING call's condition. -/
def HavingCall.value (c : HavingCall) : Value := c.cond.2.2

/-- The `HavingCondition` record a HAVING call appends. -/
def HavingCall.toCondition (c : HavingCall) : HavingCondition :=
  ⟨c.cond.1, c.cond.2.1, c.value, c.connector⟩

/-- Apply one HAVING-adding call to a complete SELECT builder. -/
def applyHavingCall (b : SelectBuilderComplete) : HavingCall → SelectBuilderComplete
  | .havingC c => b.having c
  | .andHavingC c => b.and_having c
  | .orHavingC c => b.or_having c

/-- Apply a sequence of HAVING-adding calls, left to right (call order). -/
def applyHavingCalls : SelectBuilderComplete → List HavingCall → SelectBuilderComplete
  | b, [] => b
  | b, c :: rest => applyHavingCalls (applyHavingCall b c) rest

/-- Modelled from the spec's order-preservation law: the SQL fragment one
WHERE-adding call contributes, `<left> <operator> ?`. -/
def whereCallFragment (c : WhereCall) : String :=
  c.column ++ " " ++ c.operator.as_str ++ " ?"

/-- Modelled from the spec's order-preservation law: the non-first calls each
contribute their connector token followed by their fragment, in call order. -/
def whereCallsTail : List WhereCall → String
  | [] => ""
  | c :: rest => c.connector.token ++ whereCallFragment c ++ whereCallsTail rest

/-- Modelled from the spec's order-preservation law: the whole WHERE section
a sequence of condition-adding calls produces — empty for no calls, else
` WHERE ` followed by the first call's fragment (its connector unprinted) and
the remaining calls in call order. -/
def whereSectionSpec : List WhereCall → String
  | [] => ""
  | c :: rest => " WHERE " ++ whereCallFragment c ++ whereCallsTail rest

/-- `true` iff the operator is the statically-known variant. -/
def Operator.isKnown : Operator → Bool
  | .Known _ => true
  | .Unknown _ => false

/-- The spelling table of `IntoOperator for &str`, paired with the operator
each spelling maps to, in source branch order. -/
def spellingTable : List (String × Operator) :=
  [(">", .GT), ("<", .LT), ("=", .EQ), ("!=", .NEQ), (">=", .GTE), ("<=", .LTE),
   ("LIKE", .LIKE), ("like", .LIKE), ("ILIKE", .ILIKE), ("ilike", .ILIKE),
   ("IN", .IN), ("in", .IN), ("NOT IN", .NOT_IN), ("not in", .NOT_IN),
   ("IS NULL", .IS_NULL), ("is null", .IS_NULL),
   ("IS NOT NULL", .IS_NOT_NULL), ("is not null", .IS_NOT_NULL),
   ("EXISTS", .EXISTS), ("exists", .EXISTS),
   ("NOT EXISTS", .NOT_EXISTS), ("not exists", .NOT_EXISTS)]

/-- The canonical discipline under which WHERE and HAVING parameters line up
with their placeholders: all WHERE-adding calls, then `group_by`, then all
HAVING-adding calls. -/
def whereThenHavingChain (t : String) (cols : List String) (W : List WhereCall)
    (g : List String) (H : List HavingCall) : SelectBuilderComplete :=
  applyHavingCalls
    ((applyWhereCalls ((fromTable t).select (cols.map ColumnSelector.Column)) W).group_by g) H

/-- Scenario B of the spec: `update("users").set({name:"Jane"}).where_(("id",1))`. -/
def scenarioB : UpdateBuilderComplete :=
  ((updateTable "users").set [("name", Value.String "Jane")]).where_ (condPair "id" (Value.I32 1))

/-- The nested builder of Scenario D:
`from("orders").select("customer_id").where_(("status","completed"))`. -/
def scenarioD_subquery : SelectBuilderComplete :=
  ((fromTable "orders").select [ColumnSelector.Column "customer_id"]).where_
    (condPair "status" (Value.String "completed"))

/-- Scenario D exactly as the spec writes it:
`from("customers").where_in("id", ...)` with no `.select()` call, which is
still the initial SELECT state. -/
def scenarioD_chain : SelectBuilderInitial :=
  (fromTable "customers").where_in "id" scenarioD_subquery

/-- Scenario D with the `.select("*")` the repository's own test
(`test_where_in_subquery`) adds to reach the renderable state. -/
def scenarioD_selected : SelectBuilderComplete :=
  scenarioD_chain.select [ColumnSelector.Column "*"]

/-- `insert("users").values({name:"John"})`: a complete INSERT whose SQL has
one placeholder. -/
def insertScenario : InsertBuilderComplete :=
  (insertInto "users").values [("name", Value.String "John")]

/-- A chain that adds a HAVING condition before a WHERE condition:
`from("t").select("*").group_by("g").having(("h",">",5)).where_(("w",1))`. -/
def havingBeforeWhereChain : SelectBuilderComplete :=
  ((((fromTable "t").select_all).group_by ["g"]).having
    ("h", Operator.GT, Value.I32 5)).where_ ("w", Operator.EQ, Value.I32 1)

/-- A chain whose JOIN ON condition carries a free-form operator string that
matches no known token:
`from("users").join(Inner, "profiles", "users.id", "BADOP", "profiles.user_id").select("*")`. -/
def joinUnknownOpChain : SelectBuilderComplete :=
  ((fromTable "users").join JoinType.Inner "profiles" "users.id"
    (Operator.fromStr "BADOP") "profiles.user_id").select_all

/-- A chain that adds a `where_in` subquery condition before a regular
`where_` condition:
`from("customers").select("*").where_in("id", from("orders").select("customer_id")).where_(("active",true))`. -/
def whereInThenWhereChain : SelectBuilderComplete :=
  (((fromTable "customers").select [ColumnSelector.Column "*"]).where_in "id"
    ((fromTable "orders").select [ColumnSelector.Column "customer_id"])).where_
    (condPair "active" (Value.Bool true))

/-- The operator-validation loop succeeds on a list of conditions whose
operators are all statically known. -/
theorem validateWhereOps_all_known (cs : List WhereCondition)
    (hk : ∀ c ∈ cs, c.operator.isKnown = true) :
    validateWhereOps cs = .ok () := by
  induction cs with
  | nil => rfl
  | cons c rest ih =>
    have hc := hk c (by simp)
    have hrest : validateWhereOps rest = .ok () :=
      ih (fun d hd => hk d (by simp [hd]))
    cases hop : c.operator with
    | Known s =>
      simp [validateWhereOps, Operator.validate, hop, hrest, Bind.bind, Except.bind]
    | Unknown s =>
      rw [hop] at hc
      simp [Operator.isKnown] at hc

/-- Splitting the operator-validation loop across an append whose first part
is all known operators. -/
theorem validateWhereOps_append_all_known (cs ds : List WhereCondition)
    (hk : ∀ c ∈ cs, c.operator.isKnown = true) :
    validateWhereOps (cs ++ ds) = validateWhereOps ds := by
  induction cs with
  | nil => rfl
  | cons c rest ih =>
    have hc := hk c (by simp)
    cases hop : c.operator with
    | Known s =>
      have := ih (fun d hd => hk d (by simp [hd]))
      simp [validateWhereOps, Operator.validate, hop, this, Bind.bind, Except.bind]
    | Unknown s =>
      rw [hop] at hc
      simp [Operator.isKnown] at hc

/-- Normal form of a sequence of WHERE-adding calls: the conditions append in
call order and the values append to the stored parameter list in call
order; no other field changes. -/
theorem applyWhereCalls_mk (t : String) (c : List ColumnSelector)
    (w : List WhereCondition) (s : List SubqueryCondition) (j : List JoinClause)
    (o : List OrderByClause) (g : Option GroupByClause) (hv : List HavingCondition)
    (d : Bool) (l f : Option Nat) (p : List Value) (W : List WhereCall) :
    applyWhereCalls (.mk t c w s j o g hv d l f p) W =
      .mk t c (w ++ W.map WhereCall.toCondition) s j o g hv d l f
        (p ++ W.map WhereCall.value) := by
  induction W generalizing w p with
  | nil => simp [applyWhereCalls]
  | cons hd tl ih =>
    cases hd with
    | whereC cond =>
      obtain ⟨col, op, v⟩ := cond
      simp only [applyWhereCalls, applyWhereCall, SelectBuilderComplete.where_, ih,
        List.map_cons, WhereCall.toCondition, WhereCall.value, WhereCall.column,
        WhereCall.operator, WhereCall.connector, WhereCall.cond, List.append_assoc,
        List.cons_append, List.nil_append]
    | orWhereC cond =>
      obtain ⟨col, op, v⟩ := cond
      simp only [applyWhereCalls, applyWhereCall, SelectBuilderComplete.or_where, ih,
        List.map_cons, WhereCall.toCondition, WhereCall.value, WhereCall.column,
        WhereCall.operator, WhereCall.connector, WhereCall.cond, List.append_assoc,
        List.cons_append, List.nil_append]
    | andWhereC cond =>
      obtain ⟨col, op, v⟩ := cond
      simp only [applyWhereCalls, applyWhereCall, SelectBuilderComplete.and_where,
        SelectBuilderComplete.where_, ih, List.map_cons, WhereCall.toCondition,
        WhereCall.value, WhereCall.column, WhereCall.operator, WhereCall.connector,
        WhereCall.cond, List.append_assoc, List.cons_append, List.nil_append]

/-- Normal form of a sequence of HAVING-adding calls. -/
theorem applyHavingCalls_mk (t : String) (c : List ColumnSelector)
    (w : List WhereCondition) (s : List SubqueryCondition) (j : List JoinClause)
    (o : List OrderByClause) (g : Option GroupByClause) (hv : List HavingCondition)
    (d : Bool) (l f : Option Nat) (p : List Value) (H : List HavingCall) :
    applyHavingCalls (.mk t c w s j o g hv d l f p) H =
      .mk t c w s j o g (hv ++ H.map HavingCall.toCondition) d l f
        (p ++ H.map HavingCall.value) := by
  induction H generalizing hv p with
  | nil => simp [applyHavingCalls]
  | cons hd tl ih =>
    cases hd with
    | havingC cond =>
      obtain ⟨col, op, v⟩ := cond
      simp only [applyHavingCalls, applyHavingCall, SelectBuilderComplete.having, ih,
        List.map_cons, HavingCall.toCondition, HavingCall.value, HavingCall.connector,
        HavingCall.cond, List.append_assoc, List.cons_append, List.nil_append]
    | andHavingC cond =>
      obtain ⟨col, op, v⟩ := cond
      simp only [applyHavingCalls, applyHavingCall, SelectBuilderComplete.and_having, ih,
        List.map_cons, HavingCall.toCondition, HavingCall.value, HavingCall.connector,
        HavingCall.cond, List.append_assoc, List.cons_append, List.nil_append]
    | orHavingC cond =>
      obtain ⟨col, op, v⟩ := cond
      simp only [applyHavingCalls, applyHavingCall, SelectBuilderComplete.or_having, ih,
        List.map_cons, HavingCall.toCondition, HavingCall.value, HavingCall.connector,
        HavingCall.cond, List.append_assoc, List.cons_append, List.nil_append]

/-- A SELECT list of plain columns contributes no placeholders. -/
theorem columnsPlaceholderParams_plain (cols : List String) :
    columnsPlaceholderParams (cols.map ColumnSelector.Column) = [] := by
  induction cols with
  | nil => rfl
  | cons c rest ih => simp [columnsPlaceholderParams, ih]

/-- Past the first condition, the WHERE emission loop prints each call's
connector token and fragment in call order. -/
theorem renderWhereConds_map_tail (W : List WhereCall) (n : Nat) :
    renderWhereConds (W.map WhereCall.toCondition) (n + 1) = whereCallsTail W := by
  induction W generalizing n with
  | nil => rfl
  | cons c rest ih =>
    simp [renderWhereConds, whereCallsTail, whereCallFragment, WhereCall.toCondition,
      ih, Nat.succ_pos, String.append_assoc]

/-- The WHERE emission loop started at index 0 prints the first call's
fragment without a connector, then the tail in call order. -/
theorem renderWhereConds_map_zero (c : WhereCall) (rest : List WhereCall) :
    renderWhereConds (c.toCondition :: rest.map WhereCall.toCondition) 0 =
      whereCallFragment c ++ whereCallsTail rest := by
  simp [renderWhereConds, whereCallFragment, WhereCall.toCondition,
    renderWhereConds_map_tail, String.append_assoc]

/-- C1: the placeholder/parameter alignment law fails on the INSERT builder:
`insert("users").values({name:"John"})` renders to SQL with one `?`
placeholder while `parameters()` returns the empty sequence, because
`InsertBuilderComplete.parameters` is initialised empty and never populated.
This theorem evaluates the code at that failing input. -/
theorem C1_insert_placeholder_parameter_mismatch :
    insertScenario.to_sql = .ok "INSERT INTO users (name) VALUES (?)" ∧
    countPlaceholders "INSERT INTO users (name) VALUES (?)" = 1 ∧
    insertScenario.parameters = [] :=
  ⟨rfl, rfl, rfl⟩

/-- C3: rendering any structurally incomplete builder state —
`SelectBuilderInitial`, `InsertBuilderInitial`, `UpdateBuilderInitial`,
`UpdateBuilderWithSet`, `DeleteBuilderInitial` — always returns the
incomplete-query `InvalidQuery` error naming the missing clause and never any
SQL string. -/
theorem C3_incomplete_states_fail :
    (∀ b : SelectBuilderInitial, b.to_sql
        = .error (Error.InvalidQuery "SELECT requires columns to be specified with .select()")) ∧
    (∀ b : InsertBuilderInitial, b.to_sql
        = .error (Error.InvalidQuery "INSERT requires values to be specified with .values()")) ∧
    (∀ b : UpdateBuilderInitial, b.to_sql
        = .error (Error.InvalidQuery "UPDATE requires SET clause. Use .set() method.")) ∧
    (∀ b : UpdateBuilderWithSet, b.to_sql
        = .error (Error.InvalidQuery
            "UPDATE requires WHERE clause for safety. Use .where_() or .and_where() method.")) ∧
    (∀ b : DeleteBuilderInitial, b.to_sql
        = .error (Error.InvalidQuery "DELETE requires WHERE condition for safety")) :=
  ⟨fun _ => rfl, fun _ => rfl, fun _ => rfl, fun _ => rfl, fun _ => rfl⟩

/-- C8 (Scenario B): `update("users").set({name:"Jane"}).where_(("id",1))`
renders to `UPDATE users SET name = ? WHERE id = ?` with parameters
`["Jane", 1]`, SET values before WHERE values. -/
theorem C8_scenarioB :
    scenarioB.to_sql = .ok "UPDATE users SET name = ? WHERE id = ?" ∧
    scenarioB.parameters = [Value.String "Jane", Value.I32 1] :=
  ⟨rfl, rfl⟩

/-- C10: `parameters()` on the initial SELECT state is always empty, even
after `where_`/`or_where`/`having` calls have accumulated values internally;
the accumulated values (and any newly added one) become observable through
`parameters()` only once `select` transitions to the complete state. -/
theorem C10_initial_parameters_empty (b : SelectBuilderInitial) (c : Condition)
    (cols : List ColumnSelector) :
    b.parameters = [] ∧
    (b.where_ c).parameters = [] ∧
    (b.or_where c).parameters = [] ∧
    (b.having c).parameters = [] ∧
    (b.select cols).parameters = b.params_acc ∧
    ((b.where_ c).select cols).parameters = b.params_acc ++ [c.2.2] := by
  obtain ⟨t, w, s, j, o, g, hv, d, l, f, p⟩ := b
  obtain ⟨col, op, v⟩ := c
  exact ⟨rfl, rfl, rfl, rfl, rfl, rfl⟩

/-- C6 counterexample: the chain of Scenario D as the spec writes it,
`from("customers").where_in("id", ...)`, never calls `.select()`, so it is
still the initial SELECT state and `to_sql()` fails with the incomplete-query
error instead of rendering the claimed SQL string. -/
theorem C6_counterexample_initial_state_render_fails :
    scenarioD_chain.to_sql
      = .error (Error.InvalidQuery "SELECT requires columns to be specified with .select()") ∧
    scenarioD_chain.to_sql
      ≠ .ok "SELECT * FROM customers WHERE id IN (SELECT customer_id FROM orders WHERE status = ?)" := by
  refine ⟨rfl, ?_⟩
  intro h
  rw [SelectBuilderInitial.to_sql] at h
  exact Except.noConfusion h

/-- C6 amended: with the `.select("*")` the repository's own test adds, the
Scenario D chain renders to exactly the claimed SQL string; the nested
parameter `"completed"` is reachable via the nested builder's own parameter
accessor (both directly and through the stored subquery condition), while the
parent's own parameter list stays empty. -/
theorem C6_amended_scenarioD_with_select :
    scenarioD_selected.to_sql
      = .ok "SELECT * FROM customers WHERE id IN (SELECT customer_id FROM orders WHERE status = ?)" ∧
    scenarioD_selected.parameters = [] ∧
    (scenarioD_selected.subquery_conditions.map fun sc => sc.subquery.parameters)
      = [[Value.String "completed"]] ∧
    scenarioD_subquery.parameters = [Value.String "completed"] :=
  ⟨rfl, rfl, rfl, rfl⟩

/-- C7 counterexample: operator conversion from a string is not
case-insensitive — the mixed-case spelling `"Like"` is wrapped as the unknown
variant instead of yielding the known `LIKE` operator. -/
theorem C7_counterexample_mixed_case_like :
    Operator.fromStr "Like" = .Unknown "Like" ∧ Operator.fromStr "Like" ≠ Operator.LIKE := by
  refine ⟨rfl, ?_⟩
  intro h
  rw [show Operator.fromStr "Like" = .Unknown "Like" from rfl] at h
  exact Operator.noConfusion (h.trans rfl)

/-- C7 amended: conversion is total over a FIXED table of spellings — the
symbols plus exactly the all-upper and all-lower spellings of each word
operator — each mapping to its known operator; every string outside the table
(mixed-case spellings included) is wrapped as the unknown variant without
failing. -/
theorem C7_amended_spelling_table :
    (∀ p ∈ spellingTable, Operator.fromStr p.1 = p.2 ∧ p.2.isKnown = true) ∧
    (knownSpellings = spellingTable.map fun p => p.1) ∧
    (∀ s : String, s ∉ knownSpellings → Operator.fromStr s = .Unknown s) := by
  refine ⟨by decide, by decide, ?_⟩
  intro s hs
  simp only [knownSpellings, List.mem_cons, List.not_mem_nil, or_false, not_or] at hs
  obtain ⟨h1, h2, h3, h4, h5, h6, h7, h8, h9, h10, h11, h12, h13, h14, h15, h16, h17,
    h18, h19, h20, h21, h22⟩ := hs
  simp [Operator.fromStr, h1, h2, h3, h4, h5, h6, h7, h8, h9, h10, h11, h12, h13, h14,
    h15, h16, h17, h18, h19, h20, h21, h22]

/-- Witness for C7 amended at the concrete non-table string `"@@"`. -/
theorem C7_amended_witness : Operator.fromStr "@@" = .Unknown "@@" :=
  C7_amended_spelling_table.2.2 "@@" (by decide)

/-- C2 counterexample: calling `having` before `where_` makes `parameters()`
return the HAVING value before the WHERE value, while the emitted SQL places
the WHERE placeholder before the HAVING placeholder — so the parameter
sequence is NOT ordered with all WHERE values before all HAVING values. -/
theorem C2_counterexample_having_before_where :
    havingBeforeWhereChain.to_sql
      = .ok "SELECT * FROM t WHERE w = ? GROUP BY g HAVING h > ?" ∧
    havingBeforeWhereChain.parameters = [Value.I32 5, Value.I32 1] ∧
    placeholderParams havingBeforeWhereChain = [Value.I32 1, Value.I32 5] ∧
    havingBeforeWhereChain.parameters ≠ placeholderParams havingBeforeWhereChain := by
  refine ⟨rfl, rfl, rfl, ?_⟩
  intro h
  rw [show havingBeforeWhereChain.parameters = [Value.I32 5, Value.I32 1] from rfl,
    show placeholderParams havingBeforeWhereChain = [Value.I32 1, Value.I32 5] from rfl] at h
  simp at h

/-- C2 amended: `parameters()` returns condition values in call order, which
matches the left-to-right placeholder order exactly under the discipline that
every WHERE-adding call precedes every HAVING-adding call and a GROUP BY is
set: then the stored parameter list equals the placeholder-ordered value list
(all WHERE values in call order, then all HAVING values in call order). -/
theorem C2_amended_call_order_alignment (t : String) (cols : List String)
    (W : List WhereCall) (g : List String) (H : List HavingCall) :
    (whereThenHavingChain t cols W g H).parameters
        = placeholderParams (whereThenHavingChain t cols W g H) ∧
    (whereThenHavingChain t cols W g H).parameters
        = W.map WhereCall.value ++ H.map HavingCall.value := by
  have hb : whereThenHavingChain t cols W g H =
      .mk t (cols.map ColumnSelector.Column) (W.map WhereCall.toCondition) [] [] []
        (some ⟨g⟩) (H.map HavingCall.toCondition) false none none
        (W.map WhereCall.value ++ H.map HavingCall.value) := by
    unfold whereThenHavingChain
    rw [show (fromTable t).select (cols.map ColumnSelector.Column) =
      SelectBuilderComplete.mk t (cols.map ColumnSelector.Column) [] [] [] [] none []
        false none none [] from rfl]
    rw [applyWhereCalls_mk]
    rw [show SelectBuilderComplete.group_by
        (.mk t (cols.map ColumnSelector.Column) ([] ++ W.map WhereCall.toCondition) [] [] []
          none [] false none none ([] ++ W.map WhereCall.value)) g =
      .mk t (cols.map ColumnSelector.Column) ([] ++ W.map WhereCall.toCondition) [] [] []
        (some ⟨g⟩) [] false none none ([] ++ W.map WhereCall.value) from rfl]
    rw [applyHavingCalls_mk]
    simp
  rw [hb]
  constructor
  · simp only [SelectBuilderComplete.parameters, placeholderParams,
      columnsPlaceholderParams_plain, subqueryCondsPlaceholderParams,
      List.map_map, List.nil_append, List.append_nil]
    simp [Function.comp_def, HavingCall.toCondition, WhereCall.toCondition]
  · rfl

/-- C4 counterexample: a free-form operator string that matches no known
token, used in a JOIN ON condition, does NOT fail the render — `to_sql()`
succeeds and splices the invalid token into the SQL, because the renderer
validates only WHERE and subquery-condition operators. -/
theorem C4_counterexample_join_unknown_operator :
    Operator.fromStr "BADOP" = .Unknown "BADOP" ∧
    joinUnknownOpChain.to_sql
      = .ok "SELECT * FROM users INNER JOIN profiles ON users.id BADOP profiles.user_id" :=
  ⟨rfl, rfl⟩

/-- C4 amended: building a condition with an unknown free-form operator never
fails during chaining (the condition is stored as given), and `to_sql()` on a
complete SELECT whose existing WHERE operators are known fails with the
unknown-operator error — detected by the validation pass that runs before any
SQL string is assembled.  Operators in JOIN ON (and HAVING) conditions are
not validated. -/
theorem C4_amended_unknown_where_operator_fails (b : SelectBuilderComplete)
    (col : String) (s : String) (v : Value)
    (hk : ∀ c ∈ b.where_conditions, c.operator.isKnown = true)
    (hu : Operator.fromStr s = .Unknown s) :
    ((b.where_ (col, Operator.fromStr s, v)).where_conditions
        = b.where_conditions ++ [⟨col, Operator.Unknown s, v, WhereConnector.And⟩]) ∧
    (b.where_ (col, Operator.fromStr s, v)).to_sql
        = .error (Error.InvalidQuery (unknownOperatorMessage s)) := by
  obtain ⟨t, cl, w, sq, j, o, g, hv, d, l, f, p⟩ := b
  rw [hu]
  have hkw : ∀ c ∈ w, c.operator.isKnown = true := by
    simpa [SelectBuilderComplete.where_conditions] using hk
  have hval : validateWhereOps (w ++ [⟨col, Operator.Unknown s, v, WhereConnector.And⟩])
      = .error (Error.InvalidQuery (unknownOperatorMessage s)) := by
    rw [validateWhereOps_append_all_known _ _ hkw]
    simp [validateWhereOps, Operator.validate, Error.invalid_query, Bind.bind, Except.bind]
  refine ⟨by simp [SelectBuilderComplete.where_, SelectBuilderComplete.where_conditions], ?_⟩
  simp [SelectBuilderComplete.where_, SelectBuilderComplete.to_sql, hval,
    Bind.bind, Except.bind]

/-- Witness for C4 amended at a concrete builder with no prior conditions and
the unknown operator string `"BADOP"`. -/
theorem C4_amended_witness :
    ((((fromTable "t").select_all).where_ ("a", Operator.fromStr "BADOP", Value.Null)).where_conditions
        = ((fromTable "t").select_all).where_conditions
            ++ [⟨"a", Operator.Unknown "BADOP", Value.Null, WhereConnector.And⟩]) ∧
    (((fromTable "t").select_all).where_ ("a", Operator.fromStr "BADOP", Value.Null)).to_sql
        = .error (Error.InvalidQuery (unknownOperatorMessage "BADOP")) :=
  C4_amended_unknown_where_operator_fails ((fromTable "t").select_all) "a" "BADOP" Value.Null
    (by simp [fromTable, SelectBuilderInitial.select_all, SelectBuilderComplete.where_conditions])
    rfl

/-- C5 counterexample: a `where_in` subquery condition added BEFORE a regular
`where_` condition is nevertheless emitted AFTER it — the renderer always
prints all regular WHERE conditions first, so condition emission does not
follow call order. -/
theorem C5_counterexample_subquery_condition_order :
    whereInThenWhereChain.to_sql
      = .ok "SELECT * FROM customers WHERE active = ? AND id IN (SELECT customer_id FROM orders)" ∧
    whereInThenWhereChain.to_sql
      ≠ .ok "SELECT * FROM customers WHERE id IN (SELECT customer_id FROM orders) AND active = ?" := by
  refine ⟨rfl, ?_⟩
  intro h
  rw [show whereInThenWhereChain.to_sql
      = .ok "SELECT * FROM customers WHERE active = ? AND id IN (SELECT customer_id FROM orders)"
      from rfl] at h
  simp at h

/-- C5 amended: for chains of the regular condition-adding calls
(`where_`/`and_where`/`or_where`) with known operators, the rendered SQL
emits the conditions in exact call order, the first without a connector and
each later one preceded by the AND/OR token its call supplied; subquery
conditions (e.g. `where_in`) are instead always emitted after all regular
WHERE conditions. -/
theorem C5_amended_where_chain_order (t : String) (W : List WhereCall)
    (hk : ∀ c ∈ W, c.operator.isKnown = true) :
    (applyWhereCalls ((fromTable t).select_all) W).to_sql
      = .ok ("SELECT * FROM " ++ t ++ whereSectionSpec W) := by
  have hb : applyWhereCalls ((fromTable t).select_all) W =
      .mk t [ColumnSelector.Column "*"] (W.map WhereCall.toCondition) [] [] [] none []
        false none none (W.map WhereCall.value) := by
    have h0 := applyWhereCalls_mk t [ColumnSelector.Column "*"] [] [] [] [] none []
      false none none [] W
    simpa [fromTable, SelectBuilderInitial.select_all] using h0
  rw [hb]
  have hval : validateWhereOps (W.map WhereCall.toCondition) = .ok () := by
    apply validateWhereOps_all_known
    intro c hc
    simp only [List.mem_map] at hc
    obtain ⟨w, hw, rfl⟩ := hc
    simpa [WhereCall.toCondition] using hk w hw
  have e2 : String.intercalate ", " ["*"] = "*" := rfl
  cases W with
  | nil =>
    simp only [List.map_nil] at hval ⊢
    simp only [SelectBuilderComplete.to_sql, hval, validateSubqueryOps,
      renderColumns, renderColumnSelector, renderJoins, whereSectionSpec, e2,
      Bind.bind, Except.bind, pure, Except.pure, List.isEmpty_nil, List.isEmpty_cons,
      Bool.and_self, if_true, if_false, Bool.false_eq_true, ite_false, ite_true,
      String.append_empty, String.empty_append]
    rw [show ((("SELECT " ++ "*") ++ " FROM " : String)) = "SELECT * FROM " from rfl]
  | cons c rest =>
    simp only [List.map_cons] at hval ⊢
    simp only [SelectBuilderComplete.to_sql, hval, validateSubqueryOps,
      renderColumns, renderColumnSelector, renderJoins, renderSubqueryConds,
      whereSectionSpec, e2,
      Bind.bind, Except.bind, pure, Except.pure, List.isEmpty_nil, List.isEmpty_cons,
      Bool.and_self, if_true, if_false, Bool.false_eq_true, ite_false, ite_true,
      String.append_empty, String.empty_append]
    rw [show ((("SELECT " ++ "*") ++ " FROM " : String)) = "SELECT * FROM " from rfl]
    simp [renderWhereConds_map_zero, String.append_assoc]

/-- Witness for C5 amended at the concrete 2-call chain
`where_(("a",">",1))` then `or_where(("b","=",2))`. -/
theorem C5_amended_witness :
    (applyWhereCalls ((fromTable "users").select_all)
        [.whereC ("a", Operator.GT, Value.I32 1), .orWhereC ("b", Operator.EQ, Value.I32 2)]).to_sql
      = .ok ("SELECT * FROM " ++ "users" ++ whereSectionSpec
          [.whereC ("a", Operator.GT, Value.I32 1), .orWhereC ("b", Operator.EQ, Value.I32 2)]) :=
  C5_amended_where_chain_order "users"
    [.whereC ("a", Operator.GT, Value.I32 1), .orWhereC ("b", Operator.EQ, Value.I32 2)]
    (by intro c hc
        simp only [List.mem_cons, List.not_mem_nil, or_false] at hc
        rcases hc with rfl | rfl <;> rfl)

/-- C9: on a complete SELECT with no GROUP BY clause, adding a HAVING
condition leaves the rendered SQL completely unchanged (no HAVING section, no
placeholder for the HAVING value — so whenever the base chain renders
successfully the extended one renders the identical string), while
`parameters()` still gains the HAVING condition's value. -/
theorem C9_having_without_group_by (b : SelectBuilderComplete) (c : Condition)
    (hg : b.group_by_clause = none) :
    (b.having c).to_sql = b.to_sql ∧
    (b.having c).parameters = b.parameters ++ [c.2.2] := by
  obtain ⟨t, cl, w, sq, j, o, g, hv, d, l, f, p⟩ := b
  obtain ⟨col, op, v⟩ := c
  rw [show (SelectBuilderComplete.mk t cl w sq j o g hv d l f p).group_by_clause = g
    from rfl] at hg
  subst hg
  exact ⟨by simp [SelectBuilderComplete.having, SelectBuilderComplete.to_sql], rfl⟩

/-- Witness for C9 at the concrete base `from("orders").select("*")` (which
has no GROUP BY) and the HAVING condition `("COUNT(*)", ">", 5)`. -/
theorem C9_witness :
    ((((fromTable "orders").select_all).having ("COUNT(*)", Operator.GT, Value.I32 5)).to_sql
        = ((fromTable "orders").select_all).to_sql) ∧
    ((((fromTable "orders").select_all).having ("COUNT(*)", Operator.GT, Value.I32 5)).parameters
        = ((fromTable "orders").select_all).parameters ++ [Value.I32 5]) :=
  C9_having_without_group_by ((fromTable "orders").select_all)
    ("COUNT(*)", Operator.GT, Value.I32 5) rfl
